/-
Verification of the HorizCoin payment-rail core against its specification.

The subsystems embedded here (shallowly, over Lean types) are:
  * `iban_generator.py`    — IBAN check-digit generation (Mod-97-10);
  * `pacs008_generator.py` — pacs.008 payment-instruction construction;
  * `camt053_reconciler.py`— camt.053 statement reconciliation with drift;
  * `tigerbeetle_client.py`— account creation flags and batch-error reporting.

Python strings are modelled as lists of Unicode code points (`List Nat`);
the ASCII fragment of `str.upper` / `str.isalpha` / `str.isdigit` is
embedded directly (all inputs the code handles are ASCII identifiers,
digits and XML tag text).
-/
import Mathlib

set_option autoImplicit false

/-- Code points of a Lean string literal, used to write Python string
constants from the source as `List Nat`. -/
def strCodes (s : String) : List Nat := s.toList.map Char.toNat

/-- ASCII fragment of Python `str.isalpha` on a single code point. -/
def isAlphaCode (n : Nat) : Bool := decide ((65 ≤ n ∧ n ≤ 90) ∨ (97 ≤ n ∧ n ≤ 122))

/-- ASCII fragment of Python `str.isdigit` on a single code point. -/
def isDigitCode (n : Nat) : Bool := decide (48 ≤ n ∧ n ≤ 57)

/-- ASCII fragment of Python `str.upper` on a single code point. -/
def pyUpper (n : Nat) : Nat := if 97 ≤ n ∧ n ≤ 122 then n - 32 else n

/-- Structural worker for `natDigits`: `fuel` bounds the recursion depth
(`n / 10 < n` for `n ≥ 10`, so `n + 1` steps always suffice). -/
def natDigitsGo (fuel n : Nat) : List Nat :=
  match fuel with
  | 0 => []
  | fuel + 1 => if n < 10 then [48 + n] else natDigitsGo fuel (n / 10) ++ [48 + n % 10]

/-- Decimal digit code points of `n`, most significant first: the code
points of Python `str(n)` for a natural number. -/
def natDigits (n : Nat) : List Nat := natDigitsGo (n + 1) n

/-- Code points of Python `f"{n:02d}"` for `n < 100`: two decimal digits,
zero padded. -/
def twoDigitCodes (n : Nat) : List Nat := [48 + n / 10, 48 + n % 10]

theorem natDigits_ne_nil (n : Nat) : natDigits n ≠ [] := by
  unfold natDigits natDigitsGo
  split
  · simp
  · simp

theorem natDigitsGo_all_digit (fuel n : Nat) : (natDigitsGo fuel n).all isDigitCode = true := by
  induction fuel generalizing n with
  | zero => rfl
  | succ fuel ih =>
    unfold natDigitsGo
    split
    · simp only [List.all_cons, List.all_nil, Bool.and_true]
      unfold isDigitCode
      rw [decide_eq_true_eq]
      omega
    · simp only [List.all_append, ih, Bool.true_and, List.all_cons, List.all_nil, Bool.and_true]
      unfold isDigitCode
      rw [decide_eq_true_eq]
      omega

theorem natDigits_all_digit (n : Nat) : (natDigits n).all isDigitCode = true :=
  natDigitsGo_all_digit (n + 1) n

theorem pyUpper_preserves_alpha (c : Nat) : isAlphaCode (pyUpper c) = isAlphaCode c := by
  unfold pyUpper isAlphaCode
  split
  · rw [decide_eq_decide]
    omega
  · rfl

/-! ## Checksum Utility: `iban_generator.py`

```python
def generate_iban(country_code, bank_code, account_number):
    country_code = country_code.upper()
    if len(country_code) != 2 or not country_code.isalpha():
        raise ValueError("Country code must be 2 letters")
    bban = (bank_code + account_number).replace(" ", "")
    temp = bban + country_code + "00"
    expanded = "".join(str(ord(c.upper()) - 55) if c.isalpha() else c for c in temp)
    remainder = int(expanded) % 97
    check = 98 - remainder
    return f"{country_code}{check:02d}{bban}"
```
-/

/-- Embeds `int("".join(str(ord(c.upper()) - 55) if c.isalpha() else c for c in l))`
at the numeric level, threading the accumulated value: a letter contributes its
two-digit expansion `ord(upper(c)) - 55` (10..35), a digit contributes itself,
and any other character makes `int` raise (`none`). -/
def expandGo (acc : Nat) : List Nat → Option Nat
  | [] => some acc
  | c :: rest =>
    if isAlphaCode c then expandGo (acc * 100 + (pyUpper c - 55)) rest
    else if isDigitCode c then expandGo (acc * 10 + (c - 48)) rest
    else none

/-- Numeric value of the expanded string, when every character expands. -/
def expandVal (l : List Nat) : Option Nat := expandGo 0 l

/-- Embedding of `generate_iban`: `.error` models the raised `ValueError`.
`country_code.map pyUpper` is the local `country_code = country_code.upper()`,
`(bank_code ++ account_number).filter (fun c => c ≠ 32)` is the local
`bban = (bank_code + account_number).replace(" ", "")`, and the `[48, 48]`
suffix is the literal `"00"` of `temp = bban + country_code + "00"`. -/
def generate_iban (country_code bank_code account_number : List Nat) :
    Except (List Nat) (List Nat) :=
  if (country_code.map pyUpper).length = 2 ∧ (country_code.map pyUpper).all isAlphaCode then
    match expandVal ((bank_code ++ account_number).filter (fun c => c ≠ 32) ++
        country_code.map pyUpper ++ [48, 48]) with
    | some v => .ok (country_code.map pyUpper ++ twoDigitCodes (98 - v % 97) ++
        (bank_code ++ account_number).filter (fun c => c ≠ 32))
    | none => .error (strCodes "ValueError")
  else .error (strCodes "Country code must be 2 letters")

/-- Modelled from the spec: the companion `validate(identifier) -> bool` is
absent from src/ (only `generate_iban` is present).  Per the spec's invariant,
the check digits must satisfy Mod-97-10 over the rearranged
bank-code‖account-number‖country-code‖check-digits numeric expansion, i.e. the
expanded integer is ≡ 1 (mod 97). -/
def validate_iban (id : List Nat) : Bool :=
  match expandVal (id.drop 4 ++ id.take 2 ++ (id.drop 2).take 2) with
  | some v => v % 97 == 1
  | none => false

theorem expandGo_append (xs ys : List Nat) (acc : Nat) :
    expandGo acc (xs ++ ys) = (expandGo acc xs).bind (fun a => expandGo a ys) := by
  induction xs generalizing acc with
  | nil => simp [expandGo]
  | cons c rest ih =>
    simp only [List.cons_append, expandGo]
    split
    · exact ih _
    · split
      · exact ih _
      · simp

theorem expandGo_alnum_some (l : List Nat) (h : l.all (fun c => isAlphaCode c || isDigitCode c) = true)
    (acc : Nat) : ∃ v, expandGo acc l = some v := by
  induction l generalizing acc with
  | nil => exact ⟨acc, rfl⟩
  | cons c rest ih =>
    simp only [List.all_cons, Bool.and_eq_true, Bool.or_eq_true] at h
    unfold expandGo
    rcases h.1 with hc | hc
    · rw [if_pos hc]
      exact ih (by simpa using h.2) _
    · by_cases ha : isAlphaCode c = true
      · rw [if_pos ha]
        exact ih (by simpa using h.2) _
      · rw [if_neg (by simpa using ha), if_pos hc]
        exact ih (by simpa using h.2) _

theorem expandGo_two_digits (acc : Nat) (d1 d2 : Nat) (h1 : d1 ≤ 9) (h2 : d2 ≤ 9) :
    expandGo acc [48 + d1, 48 + d2] = some (acc * 100 + (10 * d1 + d2)) := by
  have ha1 : isAlphaCode (48 + d1) = false := by simp [isAlphaCode]; omega
  have ha2 : isAlphaCode (48 + d2) = false := by simp [isAlphaCode]; omega
  have hd1 : isDigitCode (48 + d1) = true := by simp [isDigitCode]; omega
  have hd2 : isDigitCode (48 + d2) = true := by simp [isDigitCode]; omega
  simp only [expandGo, ha1, ha2, hd1, hd2, Bool.false_eq_true, if_false, if_true]
  congr 1
  omega

theorem all_alnum_of_all_alpha (l : List Nat) (h : l.all isAlphaCode = true) :
    l.all (fun c => isAlphaCode c || isDigitCode c) = true := by
  rw [List.all_eq_true] at h ⊢
  intro x hx
  simp [h x hx]

theorem map_pyUpper_all_alpha (l : List Nat) :
    (l.map pyUpper).all isAlphaCode = l.all isAlphaCode := by
  induction l with
  | nil => rfl
  | cons c rest ih => simp only [List.map_cons, List.all_cons, pyUpper_preserves_alpha, ih]

/-- C3: for every valid (bankCode, accountNumber, countryCode) triple (two-letter
country code, alphanumeric bank/account characters once spaces are stripped),
`generate_iban` succeeds and its check digits satisfy Mod-97-10: the rearranged
bank‖account‖country‖check numeric expansion is ≡ 1 (mod 97), so
`validate_iban (generate_iban ...)` returns true. -/
theorem iban_generate_validate (country_code bank_code account_number : List Nat)
    (hlen : country_code.length = 2)
    (halpha : country_code.all isAlphaCode = true)
    (hbban : ((bank_code ++ account_number).filter (fun c => c ≠ 32)).all
      (fun c => isAlphaCode c || isDigitCode c) = true) :
    ∃ id, generate_iban country_code bank_code account_number = .ok id ∧
      validate_iban id = true := by
  have hcclen : (country_code.map pyUpper).length = 2 := by
    rw [List.length_map]; exact hlen
  have hccalpha : (country_code.map pyUpper).all isAlphaCode = true := by
    rw [map_pyUpper_all_alpha]; exact halpha
  have halnum : (((bank_code ++ account_number).filter (fun c => c ≠ 32)) ++
      country_code.map pyUpper).all (fun c => isAlphaCode c || isDigitCode c) = true := by
    rw [List.all_append, hbban, all_alnum_of_all_alpha _ hccalpha]
    rfl
  obtain ⟨v0, hv0⟩ := expandGo_alnum_some _ halnum 0
  have hgen : expandVal ((bank_code ++ account_number).filter (fun c => c ≠ 32) ++
      country_code.map pyUpper ++ [48, 48]) = some (v0 * 100) := by
    unfold expandVal
    rw [expandGo_append, hv0]
    show expandGo v0 [48, 48] = some (v0 * 100)
    simpa using expandGo_two_digits v0 0 0 (by omega) (by omega)
  obtain ⟨c1, c2, hcc⟩ := List.length_eq_two.mp hcclen
  refine ⟨country_code.map pyUpper ++ twoDigitCodes (98 - (v0 * 100) % 97) ++
    ((bank_code ++ account_number).filter (fun c => c ≠ 32)), ?_, ?_⟩
  · unfold generate_iban
    rw [if_pos ⟨hcclen, hccalpha⟩]
    rw [hgen]
  · rw [hcc] at hv0 ⊢
    show (match expandVal ((bank_code ++ account_number).filter (fun c => c ≠ 32) ++
        [c1, c2] ++ [48 + (98 - (v0 * 100) % 97) / 10, 48 + (98 - (v0 * 100) % 97) % 10]) with
      | some v => v % 97 == 1
      | none => false) = true
    unfold expandVal
    rw [expandGo_append, hv0]
    show (match expandGo v0
        [48 + (98 - (v0 * 100) % 97) / 10, 48 + (98 - (v0 * 100) % 97) % 10] with
      | some v => v % 97 == 1
      | none => false) = true
    rw [expandGo_two_digits v0 _ _ (by omega) (by omega)]
    show ((v0 * 100 + (10 * ((98 - (v0 * 100) % 97) / 10) + (98 - (v0 * 100) % 97) % 10)) % 97
      == 1) = true
    rw [beq_iff_eq]
    omega

/-- Closed witness for C3 at the triple (bank "3704 0044", account "0532013000",
country "DE"). -/
theorem iban_generate_validate_witness :
    (strCodes "DE").length = 2 ∧ (strCodes "DE").all isAlphaCode = true ∧
    (((strCodes "3704 0044") ++ (strCodes "0532013000")).filter (fun c => c ≠ 32)).all
      (fun c => isAlphaCode c || isDigitCode c) = true ∧
    (∃ id, generate_iban (strCodes "DE") (strCodes "3704 0044") (strCodes "0532013000") = .ok id ∧
      validate_iban id = true) :=
  ⟨by decide, by decide, by decide,
    iban_generate_validate (strCodes "DE") (strCodes "3704 0044") (strCodes "0532013000")
      (by decide) (by decide) (by decide)⟩

/-- C8: whenever the country code is not exactly two alphabetic characters,
`generate_iban` fails with the invalid-input error instead of returning an
identifier. -/
theorem iban_invalid_country (country_code bank_code account_number : List Nat)
    (h : ¬(country_code.length = 2 ∧ country_code.all isAlphaCode = true)) :
    generate_iban country_code bank_code account_number =
      .error (strCodes "Country code must be 2 letters") := by
  unfold generate_iban
  rw [if_neg]
  intro hc
  apply h
  obtain ⟨h1, h2⟩ := hc
  refine ⟨by rw [List.length_map] at h1; exact h1, ?_⟩
  rw [← map_pyUpper_all_alpha]
  exact h2

/-- Closed witness for C8 at the three-letter country code "USA". -/
theorem iban_invalid_country_witness :
    ¬((strCodes "USA").length = 2 ∧ (strCodes "USA").all isAlphaCode = true) ∧
    generate_iban (strCodes "USA") (strCodes "123") (strCodes "456") =
      .error (strCodes "Country code must be 2 letters") :=
  ⟨by decide, iban_invalid_country (strCodes "USA") (strCodes "123") (strCodes "456") (by decide)⟩

/-! ## Reconciliation Engine: `camt053_reconciler.py`

```python
summary = {"total_entries": 0, "issues": [], "drift": Decimal("0.00")}
for stmt in root.findall('.//ns:Stmt', ns):
    for ntry in stmt.findall('.//ns:Ntry', ns):
        summary["total_entries"] += 1
        amt_elem = ntry.find('ns:Amt', ns)
        if not amt_elem:
            continue
        try:
            amount = Decimal(amt_elem.text.strip())
        except:
            summary["issues"].append("Invalid amount")
            continue
        cd_dbt = ntry.find('ns:CdtDbtInd', ns)
        direction = cd_dbt.text if cd_dbt is not None else None
        if direction not in ("CRDT", "DBIT"):
            continue
        signed = amount if direction == "CRDT" else -amount
        summary["drift"] += signed
if abs(summary["drift"]) > Decimal("0.01"):
    raise ReconciliationError(...)
return summary
```

An `xml.etree.ElementTree` element is falsy exactly when it has no child
elements, so `if not amt_elem` skips both a missing `Amt` and a present,
text-only `Amt`.  `childCount` records the number of child elements;
`value` is the result of `Decimal(amt_elem.text.strip())`, `none` when the
constructor raises (or `.strip()` raises on a missing text); `cdtDbtInd`
is the `CdtDbtInd` text, `none` when the element or its text is missing.
Decimal arithmetic is embedded in `ℚ`.
-/

structure AmtElem where
  childCount : Nat
  value : Option ℚ
deriving DecidableEq

structure Ntry where
  amt : Option AmtElem
  cdtDbtInd : Option (List Nat)
deriving DecidableEq

structure ReconSummary where
  total_entries : Nat
  issues : List (List Nat)
  drift : ℚ
deriving DecidableEq

def CRDT : List Nat := strCodes "CRDT"

def DBIT : List Nat := strCodes "DBIT"

/-- One iteration of the entry loop of `reconcile_camt053`. -/
def processNtry (s : ReconSummary) (n : Ntry) : ReconSummary :=
  match n.amt with
  | none => { s with total_entries := s.total_entries + 1 }
  | some a =>
    if a.childCount = 0 then { s with total_entries := s.total_entries + 1 }
    else
      match a.value with
      | none => { s with total_entries := s.total_entries + 1,
                         issues := s.issues ++ [strCodes "Invalid amount"] }
      | some amount =>
        if n.cdtDbtInd = some CRDT then
          { s with total_entries := s.total_entries + 1, drift := s.drift + amount }
        else if n.cdtDbtInd = some DBIT then
          { s with total_entries := s.total_entries + 1, drift := s.drift - amount }
        else { s with total_entries := s.total_entries + 1 }

/-- Embedding of `reconcile_camt053` on the parsed statement document:
`.error` models the raised `ReconciliationError` (carrying the drift). -/
def reconcile_camt053 (stmts : List (List Ntry)) : Except ℚ ReconSummary :=
  let s := stmts.foldl (fun acc stmt => stmt.foldl processNtry acc) ⟨0, [], 0⟩
  if 1 / 100 < |s.drift| then .error s.drift else .ok s

/-- C10: for a statement entry whose `Amt` element is present but has no child
XML elements (the normal, text-only case), the entry is skipped before its
amount is parsed — the element is falsy under `if not amt_elem` — so it is
counted in `total_entries` but contributes neither to drift nor to the issues
list. -/
theorem camt053_childless_amt_skipped (s : ReconSummary) (n : Ntry) (a : AmtElem)
    (hamt : n.amt = some a) (hchild : a.childCount = 0) :
    processNtry s n = { s with total_entries := s.total_entries + 1 } := by
  unfold processNtry
  rw [hamt]
  simp [hchild]

/-- Closed witness for C10: a text-only `Amt` holding a perfectly parseable
`100`, with direction CRDT, increments the count and nothing else. -/
theorem camt053_childless_amt_skipped_witness :
    (Ntry.mk (some (AmtElem.mk 0 (some 100))) (some CRDT)).amt = some (AmtElem.mk 0 (some 100)) ∧
    (AmtElem.mk 0 (some 100)).childCount = 0 ∧
    processNtry ⟨0, [], 0⟩ (Ntry.mk (some (AmtElem.mk 0 (some 100))) (some CRDT)) =
      { (⟨0, [], 0⟩ : ReconSummary) with
          total_entries := (⟨0, [], 0⟩ : ReconSummary).total_entries + 1 } :=
  ⟨rfl, rfl, camt053_childless_amt_skipped ⟨0, [], 0⟩ _ _ rfl rfl⟩

/-- C1 (refuting evaluation): the claim's own example — entries `+100.00 CRDT`
and `99.98 DBIT`, both with ordinary text-only `Amt` elements — must raise
`ReconciliationError` (drift `0.02 > 0.01`).  The code instead skips both
entries at the `if not amt_elem` test (a childless element is falsy), leaves
drift at `0`, and returns a normal report. -/
theorem camt053_textonly_entries_never_raise :
    reconcile_camt053 [[Ntry.mk (some (AmtElem.mk 0 (some 100))) (some CRDT),
      Ntry.mk (some (AmtElem.mk 0 (some (9998 / 100)))) (some DBIT)]] =
      .ok ⟨2, [], 0⟩ := by
  norm_num [reconcile_camt053, processNtry]

/-- C2 (refuting evaluation): one entry with an unparseable amount among two
valid entries (`+100.00 CRDT`, `100.00 DBIT`).  The claim requires
`total_entries = 3`, exactly one issue, and drift equal to the valid sum `0`;
the code returns `total_entries = 3` and drift `0` but records no issue at
all, because the unparseable entry's childless `Amt` is skipped before the
`Decimal` parse is attempted. -/
theorem camt053_unparseable_amount_records_no_issue :
    reconcile_camt053 [[Ntry.mk (some (AmtElem.mk 0 (some 100))) (some CRDT),
      Ntry.mk (some (AmtElem.mk 0 (some 100))) (some DBIT),
      Ntry.mk (some (AmtElem.mk 0 none)) (some CRDT)]] =
      .ok ⟨3, [], 0⟩ := by
  norm_num [reconcile_camt053, processNtry]

/-! ## Payment Instruction Builder: `pacs008_generator.py`

`generate_pacs_008` builds a document with group header
(`MsgId`, `CreDtTm`, `NbOfTxs = "1"`, `CtrlSum = f"{amount:.2f}"`,
`SttlmInf/SttlmMtd`) and one transaction block (`PmtId`,
`InstdAmt = f"{amount:.2f}"` with `Ccy`, debtor, creditor, optional
`RmtInf/Ustrd = remittance_info[:140]`).  The fresh `uuid4()` identifiers and
the UTC timestamp are nondeterministic inputs of the code and are passed as
parameters (`msgId`, `creDtTm`, `instrId`, `e2eFresh`, `txId`).  Amounts are
`Decimal`, embedded in `ℚ`. -/

/-- Rounding of `q` to an integer with ties to even: the rounding step of
`Decimal` formatting with `ROUND_HALF_EVEN`. -/
def roundHalfEven (q : ℚ) : ℤ :=
  if q - ⌊q⌋ < 1 / 2 then ⌊q⌋
  else if 1 / 2 < q - ⌊q⌋ then ⌊q⌋ + 1
  else if ⌊q⌋ % 2 = 0 then ⌊q⌋ else ⌊q⌋ + 1

/-- Code points of `f"{d:.2f}"` for a `Decimal` value `d`: quantize to two
fractional digits with `ROUND_HALF_EVEN`, then render sign, integer digits,
`'.'` (46) and exactly two fractional digits.  (`Decimal`'s sign on a negative
zero is not modelled; the claims concern positive amounts.) -/
def formatF2 (q : ℚ) : List Nat :=
  if roundHalfEven (q * 100) < 0 then
    45 :: (natDigits ((roundHalfEven (q * 100)).natAbs / 100) ++ [46] ++
      twoDigitCodes ((roundHalfEven (q * 100)).natAbs % 100))
  else
    natDigits ((roundHalfEven (q * 100)).natAbs / 100) ++ [46] ++
      twoDigitCodes ((roundHalfEven (q * 100)).natAbs % 100)

structure GrpHdr where
  msgId : List Nat
  creDtTm : List Nat
  nbOfTxs : List Nat
  ctrlSum : List Nat
  sttlmMtd : List Nat
deriving DecidableEq

structure CdtTrfTxInf where
  instrId : List Nat
  endToEndId : List Nat
  txId : List Nat
  instdAmt : List Nat
  instdAmtCcy : List Nat
  dbtrNm : List Nat
  dbtrIban : List Nat
  cdtrNm : List Nat
  cdtrIban : List Nat
  rmtUstrd : Option (List Nat)
deriving DecidableEq

structure Pacs008Document where
  grpHdr : GrpHdr
  tx : CdtTrfTxInf
deriving DecidableEq

/-- Embedding of `generate_pacs_008`.  `end_to_end_id or f"E2E-..."` is
Python truthiness: a missing or empty supplied id falls back to the fresh one;
`if remittance_info:` likewise emits no `RmtInf` for a missing or empty text. -/
def generate_pacs_008 (msgId creDtTm instrId e2eFresh txId : List Nat)
    (sender_iban receiver_iban : List Nat) (amount : ℚ) (currency : List Nat)
    (end_to_end_id remittance_info : Option (List Nat))
    (settlement_method : List Nat) : Pacs008Document :=
  { grpHdr :=
      { msgId := msgId, creDtTm := creDtTm, nbOfTxs := strCodes "1",
        ctrlSum := formatF2 amount, sttlmMtd := settlement_method },
    tx :=
      { instrId := instrId,
        endToEndId :=
          match end_to_end_id with
          | some e => if e = [] then e2eFresh else e
          | none => e2eFresh,
        txId := txId,
        instdAmt := formatF2 amount, instdAmtCcy := currency,
        dbtrNm := strCodes "Sender Name", dbtrIban := sender_iban,
        cdtrNm := strCodes "Receiver Name", cdtrIban := receiver_iban,
        rmtUstrd :=
          match remittance_info with
          | some r => if r = [] then none else some (r.take 140)
          | none => none } }

/-- A serialized amount with exactly two decimal places: a nonempty all-digit
integer part, one `'.'` (46), and exactly two digits after it. -/
def HasTwoDecimals (s : List Nat) : Prop :=
  ∃ pre d1 d2, s = pre ++ [46, d1, d2] ∧ pre ≠ [] ∧ pre.all isDigitCode = true ∧
    isDigitCode d1 = true ∧ isDigitCode d2 = true

theorem formatF2_pos_hasTwoDecimals (q : ℚ) (h : 0 < q) : HasTwoDecimals (formatF2 q) := by
  have hf : 0 ≤ ⌊q * 100⌋ := Int.floor_nonneg.mpr (by positivity)
  have hn : 0 ≤ roundHalfEven (q * 100) := by
    unfold roundHalfEven
    split
    · exact hf
    · split
      · omega
      · split
        · exact hf
        · omega
  unfold formatF2
  rw [if_neg (by omega)]
  refine ⟨natDigits ((roundHalfEven (q * 100)).natAbs / 100),
    48 + (roundHalfEven (q * 100)).natAbs % 100 / 10,
    48 + (roundHalfEven (q * 100)).natAbs % 100 % 10,
    ?_, natDigits_ne_nil _, natDigits_all_digit _, ?_, ?_⟩
  · simp [twoDigitCodes, List.append_assoc]
  · unfold isDigitCode
    rw [decide_eq_true_eq]
    omega
  · unfold isDigitCode
    rw [decide_eq_true_eq]
    omega

/-- C6: for every positive amount and any other inputs, the built document's
group-header control sum equals the serialized instructed amount, the
transaction count is exactly `"1"` (and the document carries exactly one
transaction block), and both the control sum and the instructed amount are
serialized with exactly two decimal places. -/
theorem pacs008_ctrlsum_count_two_decimals
    (msgId creDtTm instrId e2eFresh txId sender_iban receiver_iban : List Nat)
    (amount : ℚ) (currency : List Nat) (end_to_end_id remittance_info : Option (List Nat))
    (settlement_method : List Nat) (hpos : 0 < amount) :
    (generate_pacs_008 msgId creDtTm instrId e2eFresh txId sender_iban receiver_iban amount
        currency end_to_end_id remittance_info settlement_method).grpHdr.ctrlSum =
      (generate_pacs_008 msgId creDtTm instrId e2eFresh txId sender_iban receiver_iban amount
        currency end_to_end_id remittance_info settlement_method).tx.instdAmt ∧
    (generate_pacs_008 msgId creDtTm instrId e2eFresh txId sender_iban receiver_iban amount
        currency end_to_end_id remittance_info settlement_method).grpHdr.nbOfTxs = strCodes "1" ∧
    HasTwoDecimals (generate_pacs_008 msgId creDtTm instrId e2eFresh txId sender_iban
        receiver_iban amount currency end_to_end_id remittance_info
        settlement_method).grpHdr.ctrlSum ∧
    HasTwoDecimals (generate_pacs_008 msgId creDtTm instrId e2eFresh txId sender_iban
        receiver_iban amount currency end_to_end_id remittance_info
        settlement_method).tx.instdAmt :=
  ⟨rfl, rfl, formatF2_pos_hasTwoDecimals amount hpos, formatF2_pos_hasTwoDecimals amount hpos⟩

/-- Closed witness for C6 at amount 1 (USD, instant settlement, no remittance). -/
theorem pacs008_ctrlsum_count_two_decimals_witness :
    (0 : ℚ) < 1 ∧
    ((generate_pacs_008 [] [] [] [] [] [] [] 1 (strCodes "USD") none none
        (strCodes "INST")).grpHdr.ctrlSum =
      (generate_pacs_008 [] [] [] [] [] [] [] 1 (strCodes "USD") none none
        (strCodes "INST")).tx.instdAmt ∧
    (generate_pacs_008 [] [] [] [] [] [] [] 1 (strCodes "USD") none none
        (strCodes "INST")).grpHdr.nbOfTxs = strCodes "1" ∧
    HasTwoDecimals (generate_pacs_008 [] [] [] [] [] [] [] 1 (strCodes "USD") none none
        (strCodes "INST")).grpHdr.ctrlSum ∧
    HasTwoDecimals (generate_pacs_008 [] [] [] [] [] [] [] 1 (strCodes "USD") none none
        (strCodes "INST")).tx.instdAmt) :=
  ⟨by decide,
    pacs008_ctrlsum_count_two_decimals [] [] [] [] [] [] [] 1 (strCodes "USD") none none
      (strCodes "INST") (by decide)⟩

/-- C7: every remittance text longer than 140 characters is emitted truncated
to exactly 140 characters, and the builder never fails because of the length. -/
theorem pacs008_remittance_truncated
    (msgId creDtTm instrId e2eFresh txId sender_iban receiver_iban : List Nat)
    (amount : ℚ) (currency : List Nat) (end_to_end_id : Option (List Nat))
    (settlement_method : List Nat) (r : List Nat) (h : 140 < r.length) :
    (generate_pacs_008 msgId creDtTm instrId e2eFresh txId sender_iban receiver_iban amount
        currency end_to_end_id (some r) settlement_method).tx.rmtUstrd = some (r.take 140) ∧
    (r.take 140).length = 140 := by
  constructor
  · show (if r = [] then none else some (r.take 140)) = some (r.take 140)
    rw [if_neg]
    intro he
    rw [he] at h
    simp at h
  · rw [List.length_take]
    omega

/-- Closed witness for C7 at a 141-character remittance text. -/
theorem pacs008_remittance_truncated_witness :
    140 < (List.replicate 141 88).length ∧
    ((generate_pacs_008 [] [] [] [] [] [] [] 1 (strCodes "USD") none
        (some (List.replicate 141 88)) (strCodes "INST")).tx.rmtUstrd =
      some ((List.replicate 141 88).take 140) ∧
    ((List.replicate 141 88).take 140).length = 140) :=
  ⟨by norm_num,
    pacs008_remittance_truncated [] [] [] [] [] [] [] 1 (strCodes "USD") none
      (strCodes "INST") (List.replicate 141 88) (by norm_num)⟩

/-! ## Ledger Gateway: `tigerbeetle_client.py`

```python
VAULT_ACCOUNT_CODE = 1001
CUSTOMER_DEPOSIT_CODE = 2001

def create_account(account_id, code, ledger=1):
    account = Account(id=account_id, ..., ledger=ledger, code=code,
        flags=AccountFlags.LINKED if code == CUSTOMER_DEPOSIT_CODE
              else AccountFlags.DEBITS_MUST_NOT_EXCEED_CREDITS, ...)
    errors = client.create_accounts([account])
    if errors:
        for idx, err in errors:
            print(f"Account creation failed at index {idx}: {err}")
        return False
    return True
```

The external TigerBeetle client is a parameter (`client`): its batch response
is the list of per-index `(idx, err)` pairs.  `create_account` returns its
Python return value paired with the list of lines it prints to the console. -/

inductive AccountFlags where
  | linked
  | debitsMustNotExceedCredits
deriving DecidableEq

structure TBAccount where
  id : Nat
  userData128 : Nat
  userData64 : Nat
  userData32 : Nat
  ledger : Nat
  code : Nat
  flags : AccountFlags
  debitsPending : Nat
  debitsPosted : Nat
  creditsPending : Nat
  creditsPosted : Nat
  timestamp : Nat
deriving DecidableEq

def VAULT_ACCOUNT_CODE : Nat := 1001

def CUSTOMER_DEPOSIT_CODE : Nat := 2001

/-- The `Account(...)` record built inside `create_account`. -/
def accountFor (account_id code ledger : Nat) : TBAccount :=
  { id := account_id, userData128 := 0, userData64 := 0, userData32 := 0,
    ledger := ledger, code := code,
    flags := if code = CUSTOMER_DEPOSIT_CODE then AccountFlags.linked
             else AccountFlags.debitsMustNotExceedCredits,
    debitsPending := 0, debitsPosted := 0, creditsPending := 0, creditsPosted := 0,
    timestamp := 0 }

/-- The console line `f"Account creation failed at index {idx}: {err}"`. -/
def failLine (idx : Nat) (err : List Nat) : List Nat :=
  strCodes "Account creation failed at index " ++ natDigits idx ++ strCodes ": " ++ err

/-- Embedding of `create_account`: result is (Python return value, console
lines printed), with the external client's batch response passed in as
`client`. -/
def create_account (client : List TBAccount → List (Nat × List Nat))
    (account_id code ledger : Nat) : Bool × List (List Nat) :=
  match client [accountFor account_id code ledger] with
  | [] => (true, [])
  | errors => (false, errors.map (fun p => failLine p.1 p.2))

/-- C9: the account record built by `create_account` carries the linked-chain
flag exactly for the customer-custody (liability) type code, the
debits-must-not-exceed-credits constraint for the vault/asset type code, and
every type code maps to one of these two recognized flag values — so the
"unrecognized flag combination" failure condition of the claim is vacuous:
no type code can trigger it. -/
theorem create_account_flag_policy (account_id ledger : Nat) :
    (accountFor account_id CUSTOMER_DEPOSIT_CODE ledger).flags = AccountFlags.linked ∧
    (accountFor account_id VAULT_ACCOUNT_CODE ledger).flags =
      AccountFlags.debitsMustNotExceedCredits ∧
    ∀ code : Nat, (accountFor account_id code ledger).flags = AccountFlags.linked ∨
      (accountFor account_id code ledger).flags = AccountFlags.debitsMustNotExceedCredits := by
  refine ⟨rfl, rfl, fun code => ?_⟩
  unfold accountFor
  by_cases h : code = CUSTOMER_DEPOSIT_CODE
  · left
    simp [h]
  · right
    simp [h]

/-- C5 counterexample: `create_account`'s Python return value is the same
bare `False` for two different per-index failure reports — it carries no
(index, error) pairs — while the failure details appear only in the printed
console lines, which is exactly what the claim rules out. -/
theorem create_account_console_only_counterexample :
    (create_account (fun _ => [(0, strCodes "exists")]) 1 1001 1).1 = false ∧
    (create_account (fun _ => [(1, strCodes "ledger-mismatch")]) 1 1001 1).1 = false ∧
    (create_account (fun _ => [(0, strCodes "exists")]) 1 1001 1).1 =
      (create_account (fun _ => [(1, strCodes "ledger-mismatch")]) 1 1001 1).1 ∧
    [(0, strCodes "exists")] ≠ [(1, strCodes "ledger-mismatch")] ∧
    (create_account (fun _ => [(0, strCodes "exists")]) 1 1001 1).2 ≠ [] ∧
    (create_account (fun _ => [(0, strCodes "exists")]) 1 1001 1).2 ≠
      (create_account (fun _ => [(1, strCodes "ledger-mismatch")]) 1 1001 1).2 :=
  ⟨rfl, rfl, rfl, by decide, by decide, by decide⟩

/-- C5 as amended: when the client's batch response is non-empty,
`create_account` returns `False` and prints one console line per failed
(index, error) pair; the per-index pairs are reported only on the console,
not in the return value.  (Entries the client accepted stay applied on the
client's side; the wrapper does not roll anything back.) -/
theorem create_account_console_reporting
    (client : List TBAccount → List (Nat × List Nat)) (account_id code ledger : Nat)
    (h : client [accountFor account_id code ledger] ≠ []) :
    create_account client account_id code ledger =
      (false, (client [accountFor account_id code ledger]).map (fun p => failLine p.1 p.2)) ∧
    ((client [accountFor account_id code ledger]).map (fun p => failLine p.1 p.2)).length =
      (client [accountFor account_id code ledger]).length := by
  constructor
  · unfold create_account
    match hm : client [accountFor account_id code ledger] with
    | [] => exact absurd hm h
    | e :: es => rfl
  · rw [List.length_map]

/-- Closed witness for the amended C5 at a one-failure batch response. -/
theorem create_account_console_reporting_witness :
    ((fun _ => [(0, strCodes "exists")]) [accountFor 1 1001 1] : List (Nat × List Nat)) ≠ [] ∧
    (create_account (fun _ => [(0, strCodes "exists")]) 1 1001 1 =
      (false, ((fun _ => [(0, strCodes "exists")]) [accountFor 1 1001 1] :
        List (Nat × List Nat)).map (fun p => failLine p.1 p.2)) ∧
    (((fun _ => [(0, strCodes "exists")]) [accountFor 1 1001 1] :
        List (Nat × List Nat)).map (fun p => failLine p.1 p.2)).length =
      (((fun _ => [(0, strCodes "exists")]) [accountFor 1 1001 1]) :
        List (Nat × List Nat)).length) :=
  ⟨by decide, create_account_console_reporting (fun _ => [(0, strCodes "exists")]) 1 1001 1
    (by decide)⟩

/-! ## Ledger transfer posting (spec §4.3)

`create_large_deposit` submits a `Transfer` to the external TigerBeetle
client; the posting semantics — duplicate-id detection, unknown accounts,
the debit-side balance constraint, atomic balance updates — live in that
client, which is not part of src/.  They are modelled here from the spec. -/

structure LedgerAccount where
  debitsPending : Nat
  debitsPosted : Nat
  creditsPending : Nat
  creditsPosted : Nat
  debitsMustNotExceedCredits : Bool
deriving DecidableEq

structure LedgerState where
  accounts : Nat → Option LedgerAccount
  accepted : List Nat

inductive TransferResult where
  | ok
  | duplicateTransfer
  | unknownAccount
  | insufficientBalance
deriving DecidableEq

/-- Per the spec, a `DuplicateTransferError` on exact duplicate resubmission
is "an idempotent no-op, not an error". -/
def TransferResult.isError : TransferResult → Bool
  | .ok => false
  | .duplicateTransfer => false
  | .unknownAccount => true
  | .insufficientBalance => true

/-- Modelled from the spec: `postTransfer(id, debitAccount, creditAccount,
amount, code) -> Result` of the Ledger Gateway (spec §4.3), whose semantics
live in the external TigerBeetle client and are absent from src/ (only the
caller `create_large_deposit` is present).  A transfer id already accepted is
a no-op reported as `duplicateTransfer`; an unknown account fails the whole
transfer; a debit leg violating the debit account's
debits-must-not-exceed-credits constraint fails the whole transfer; otherwise
both balances update atomically and the id is recorded. -/
def postTransfer (st : LedgerState) (id debitAccount creditAccount amount : Nat) :
    LedgerState × TransferResult :=
  if id ∈ st.accepted then (st, .duplicateTransfer)
  else
    match st.accounts debitAccount, st.accounts creditAccount with
    | some da, some ca =>
      if da.debitsMustNotExceedCredits ∧ da.creditsPosted < da.debitsPosted + amount then
        (st, .insufficientBalance)
      else
        ({ accounts := fun k =>
             if k = debitAccount then
               some { da with debitsPosted := da.debitsPosted + amount }
             else if k = creditAccount then
               some { ca with creditsPosted := ca.creditsPosted + amount }
             else st.accounts k,
           accepted := id :: st.accepted }, .ok)
    | _, _ => (st, .unknownAccount)

theorem postTransfer_duplicate (st : LedgerState) (id debitAccount creditAccount amount : Nat)
    (h : id ∈ st.accepted) :
    postTransfer st id debitAccount creditAccount amount =
      (st, TransferResult.duplicateTransfer) := by
  unfold postTransfer
  rw [if_pos h]

/-- C4: resubmitting the exact same transfer id after a successful post leaves
the ledger state unchanged: the duplicate is reported as a non-error no-op,
and the debit/credit balance change of the original post is applied exactly
once. -/
theorem postTransfer_ok_state (st : LedgerState)
    (id debitAccount creditAccount amount : Nat) (da ca : LedgerAccount)
    (hdup : id ∉ st.accepted)
    (hda : st.accounts debitAccount = some da)
    (hca : st.accounts creditAccount = some ca)
    (hbal : ¬(da.debitsMustNotExceedCredits = true ∧
      da.creditsPosted < da.debitsPosted + amount)) :
    postTransfer st id debitAccount creditAccount amount =
      ({ accounts := fun k =>
           if k = debitAccount then
             some { da with debitsPosted := da.debitsPosted + amount }
           else if k = creditAccount then
             some { ca with creditsPosted := ca.creditsPosted + amount }
           else st.accounts k,
         accepted := id :: st.accepted }, TransferResult.ok) := by
  unfold postTransfer
  rw [if_neg hdup, hda, hca]
  dsimp only
  rw [if_neg hbal]

/-- C4: resubmitting the exact same transfer id after a successful post leaves
the ledger state unchanged: the duplicate is reported as a non-error no-op,
and the debit/credit balance change of the original post is applied exactly
once. -/
theorem postTransfer_duplicate_idempotent (st : LedgerState)
    (id debitAccount creditAccount amount : Nat) (hne : debitAccount ≠ creditAccount)
    (hok : (postTransfer st id debitAccount creditAccount amount).2 = TransferResult.ok) :
    (postTransfer (postTransfer st id debitAccount creditAccount amount).1
        id debitAccount creditAccount amount).1 =
      (postTransfer st id debitAccount creditAccount amount).1 ∧
    (postTransfer (postTransfer st id debitAccount creditAccount amount).1
        id debitAccount creditAccount amount).2 = TransferResult.duplicateTransfer ∧
    TransferResult.isError TransferResult.duplicateTransfer = false ∧
    ((postTransfer st id debitAccount creditAccount amount).1.accounts debitAccount).map
        (fun a => a.debitsPosted) =
      (st.accounts debitAccount).map (fun a => a.debitsPosted + amount) ∧
    ((postTransfer st id debitAccount creditAccount amount).1.accounts creditAccount).map
        (fun a => a.creditsPosted) =
      (st.accounts creditAccount).map (fun a => a.creditsPosted + amount) := by
  by_cases hdup : id ∈ st.accepted
  · exfalso
    unfold postTransfer at hok
    rw [if_pos hdup] at hok
    exact absurd hok (by simp)
  · cases hda : st.accounts debitAccount with
    | none =>
      exfalso
      unfold postTransfer at hok
      rw [if_neg hdup, hda] at hok
      cases hca : st.accounts creditAccount with
      | none => rw [hca] at hok; exact absurd hok (by simp)
      | some ca => rw [hca] at hok; exact absurd hok (by simp)
    | some da =>
      cases hca : st.accounts creditAccount with
      | none =>
        exfalso
        unfold postTransfer at hok
        rw [if_neg hdup, hda, hca] at hok
        exact absurd hok (by simp)
      | some ca =>
        by_cases hbal : da.debitsMustNotExceedCredits = true ∧
            da.creditsPosted < da.debitsPosted + amount
        · exfalso
          unfold postTransfer at hok
          rw [if_neg hdup, hda, hca] at hok
          dsimp only at hok
          rw [if_pos hbal] at hok
          exact absurd hok (by simp)
        · rw [postTransfer_ok_state st id debitAccount creditAccount amount da ca hdup hda
            hca hbal]
          dsimp only
          rw [postTransfer_duplicate _ id debitAccount creditAccount amount
            (List.mem_cons_self id st.accepted)]
          refine ⟨rfl, rfl, rfl, ?_, ?_⟩
          · rw [hda, if_pos rfl]
            rfl
          · rw [hca, if_neg (Ne.symm hne), if_pos rfl]
            rfl

/-- Closed witness for C4: accounts 1 (debit) and 2 (credit) exist, transfer 7
for 50 units posts once, and the duplicate resubmission changes nothing. -/
theorem postTransfer_duplicate_idempotent_witness :
    (1 : Nat) ≠ 2 ∧
    (postTransfer
        ⟨fun k => if k = 1 then some ⟨0, 0, 0, 0, false⟩
                  else if k = 2 then some ⟨0, 0, 0, 0, false⟩ else none, []⟩
        7 1 2 50).2 = TransferResult.ok ∧
    ((postTransfer (postTransfer
          ⟨fun k => if k = 1 then some ⟨0, 0, 0, 0, false⟩
                    else if k = 2 then some ⟨0, 0, 0, 0, false⟩ else none, []⟩
          7 1 2 50).1 7 1 2 50).1 =
        (postTransfer
          ⟨fun k => if k = 1 then some ⟨0, 0, 0, 0, false⟩
                    else if k = 2 then some ⟨0, 0, 0, 0, false⟩ else none, []⟩
          7 1 2 50).1 ∧
      (postTransfer (postTransfer
          ⟨fun k => if k = 1 then some ⟨0, 0, 0, 0, false⟩
                    else if k = 2 then some ⟨0, 0, 0, 0, false⟩ else none, []⟩
          7 1 2 50).1 7 1 2 50).2 = TransferResult.duplicateTransfer ∧
      TransferResult.isError TransferResult.duplicateTransfer = false ∧
      ((postTransfer
          ⟨fun k => if k = 1 then some ⟨0, 0, 0, 0, false⟩
                    else if k = 2 then some ⟨0, 0, 0, 0, false⟩ else none, []⟩
          7 1 2 50).1.accounts 1).map (fun a => a.debitsPosted) =
        (((⟨fun k => if k = 1 then some ⟨0, 0, 0, 0, false⟩
                    else if k = 2 then some ⟨0, 0, 0, 0, false⟩ else none, []⟩ :
            LedgerState)).accounts 1).map (fun a => a.debitsPosted + 50) ∧
      ((postTransfer
          ⟨fun k => if k = 1 then some ⟨0, 0, 0, 0, false⟩
                    else if k = 2 then some ⟨0, 0, 0, 0, false⟩ else none, []⟩
          7 1 2 50).1.accounts 2).map (fun a => a.creditsPosted) =
        (((⟨fun k => if k = 1 then some ⟨0, 0, 0, 0, false⟩
                    else if k = 2 then some ⟨0, 0, 0, 0, false⟩ else none, []⟩ :
            LedgerState)).accounts 2).map (fun a => a.creditsPosted + 50)) :=
  ⟨by decide, rfl,
    postTransfer_duplicate_idempotent
      ⟨fun k => if k = 1 then some ⟨0, 0, 0, 0, false⟩
                else if k = 2 then some ⟨0, 0, 0, 0, false⟩ else none, []⟩
      7 1 2 50 (by decide) rfl⟩
